import Mathlib

/-
Verification of the hangman browser client (Vue front end).
The definitions below shallowly embed the realtime session layer of the
client: the reactive game record and player record of the game store
(src/front/src/stores/game.ts), the socket-message watchers of the view
components (GameWordToGuess.vue, GameMiscInformation.vue), the outbound
envelope constructors of the stores and forms, and the modal continue/end
handler. Socket primitives (connectSocket, sendSocketMessage,
disconnectSocket, resetSocket) live in a user/client store that is not part
of the sources at hand; their effects on the modelled state are taken from
the written design (connect completes before resolving, disconnect releases
the transport, reset clears the latest-message slot, send transmits one
envelope).
-/

namespace Hangman

/-- The reactive game record of the game store (stores/game.ts, the Game
interface of interfaces.ts): word_progress is typed string or null, modelled
as Option String; numeric fields are JS numbers holding integers here. -/
structure Game where
  word_progress : Option String
  guessed_letters : List String
  tries_left : Int
  max_tries : Int
  successful_guesses : Int
  game_status : Int
deriving DecidableEq, Repr

/-- Initial value of the game record (stores/game.ts): empty word progress,
no guessed letters, all counters zero. -/
def initialGame : Game :=
  { word_progress := some "", guessed_letters := [], tries_left := 0,
    max_tries := 0, successful_guesses := 0, game_status := 0 }

/-- The reactive player record of the game store (the Player interface):
id and username are nullable strings. -/
structure Player where
  id : Option String
  username : Option String
  playername : String
  points : Int
  games_played : Int
  games_won : Int
deriving DecidableEq, Repr

/-- Initial player record: null id and username, a randomized display name
Player followed by the random number r, zero counters. The random draw
Math.floor(Math.random() * 1000) is modelled by the parameter r. -/
def initialPlayer (r : Nat) : Player :=
  { id := none, username := none, playername := "Player" ++ toString r,
    points := 0, games_played := 0, games_won := 0 }

/-- Payload of an inbound envelope. Each field is optional (none when the
key is absent from the JSON object); for word_progress the inner Option
distinguishes a JSON null value (some none) from a string (some (some s)).
Extra keys a server could add beyond these change no declared field of the
game record under Object.assign and are not represented. -/
structure MsgData where
  word_progress : Option (Option String) := none
  guessed_letters : Option (List String) := none
  tries_left : Option Int := none
  max_tries : Option Int := none
  successful_guesses : Option Int := none
  game_status : Option Int := none
  active_players : Option Int := none
deriving DecidableEq, Repr

/-- An inbound envelope as published on socketMessage after parsing: an
action string and a data payload. -/
structure InMessage where
  action : String
  data : MsgData
deriving DecidableEq, Repr

/-- Object.assign(game, data): every declared field of the game record is
overwritten exactly when the corresponding key is present in data, and kept
otherwise. -/
def mergeGame (g : Game) (d : MsgData) : Game :=
  { word_progress := d.word_progress.getD g.word_progress,
    guessed_letters := d.guessed_letters.getD g.guessed_letters,
    tries_left := d.tries_left.getD g.tries_left,
    max_tries := d.max_tries.getD g.max_tries,
    successful_guesses := d.successful_guesses.getD g.successful_guesses,
    game_status := d.game_status.getD g.game_status }

/-- Data part of an outbound envelope: the key can be absent entirely
(JSON.stringify drops nothing, the object simply has no data key), be an
explicit null, or carry a letter object for guesses. -/
inductive OutData where
  | absent
  | nullData
  | letterData (letter : String)
deriving DecidableEq, Repr

/-- An outbound envelope as passed to sendSocketMessage (before JSON
serialization). -/
structure OutEnvelope where
  action : String
  data : OutData
deriving DecidableEq, Repr

/-- Observable events of a client task, in program order: completion of a
connect call, or transmission of one outbound envelope. -/
inductive Event where
  | connectCompleted
  | sent (e : OutEnvelope)
deriving DecidableEq, Repr

/-- The client-local state the session layer owns: the started flag, the
game and player records, the active_players stat (Option models a possible
undefined assignment), the connection flag and latest-message slot of the
socket store, the ordered trace of emitted events, and the console log. -/
structure ClientState where
  gameStarted : Bool
  game : Game
  player : Player
  active_players : Option Int
  connected : Bool
  socketMessage : Option InMessage
  events : List Event
  log : List String
deriving DecidableEq, Repr

/-- State at application start, with r the random draw for the default
playername. -/
def initialState (r : Nat) : ClientState :=
  { gameStarted := false, game := initialGame, player := initialPlayer r,
    active_players := some 0, connected := false, socketMessage := none,
    events := [], log := [] }

/-- Envelope sent by startGame: action start_game, no data key. -/
def startGameEnv : OutEnvelope := ⟨"start_game", OutData.absent⟩

/-- Envelope sent on mount by App.vue: action server_stats, data null. -/
def serverStatsMountEnv : OutEnvelope := ⟨"server_stats", OutData.nullData⟩

/-- Envelope sent by getServerStats: action server_stats, no data key. -/
def serverStatsEnv : OutEnvelope := ⟨"server_stats", OutData.absent⟩

/-- Envelope sent by the continue-modal accept path: continue_game, null. -/
def continueGameEnv : OutEnvelope := ⟨"continue_game", OutData.nullData⟩

/-- Envelope sent by the continue-modal decline path: end_game, null. -/
def endGameEnv : OutEnvelope := ⟨"end_game", OutData.nullData⟩

/-- JS String.prototype.toLowerCase restricted to the ASCII range the
visual keyboard and letter guesses use. -/
def jsToLowerCase (s : String) : String := String.mk (s.toList.map Char.toLower)

/-- The guess envelope built by onSubmit in GameCharacterInput.vue: action
guess_letter, data with the letter key set to the lowercased input. -/
def guessEnv (c : String) : OutEnvelope :=
  ⟨"guess_letter", OutData.letterData (jsToLowerCase c)⟩

/-- The vee-validate schema of the guess form: character is required with
min 1 and max 1, so a submission is accepted exactly when the input has
length one. -/
def formAccepts (c : String) : Bool := c.length == 1

/-- createPlayer (stores/game.ts): posts to the players endpoint; on success
the response player is assigned wholesale onto the local record via
Object.assign, on rejection the error is caught and written to the console
log, leaving the rest of the state as it was. The collaborator outcome is
the parameter resp. -/
def createPlayer (s : ClientState) (resp : Option Player) : ClientState :=
  match resp with
  | some p => { s with player := p }
  | none => { s with log := s.log ++ ["createPlayer error"] }

/-- getOwnPlayer (stores/game.ts): fetches the own player; on success the
response player is assigned onto the local record, on rejection the catch
block is empty (its console.log line is commented out), so nothing at all
changes. -/
def getOwnPlayer (s : ClientState) (resp : Option Player) : ClientState :=
  match resp with
  | some p => { s with player := p }
  | none => s

/-- clearPlayer (stores/game.ts): resets every player field to its initial
value with a fresh random display name r. -/
def clearPlayer (s : ClientState) (r : Nat) : ClientState :=
  { s with player := initialPlayer r }

/-- Events emitted by the try block of startGame: when connect succeeds the
connect completion is followed by the start_game transmission; when connect
throws, the catch swallows it and nothing was emitted. -/
def startGameEmits (connectOk : Bool) : List Event :=
  if connectOk then [Event.connectCompleted, Event.sent startGameEnv] else []

/-- startGame (stores/game.ts): sets the started flag, and when player.id is
null awaits getOwnPlayer (whose own failure is caught); then awaits
connectSocket and sends the start_game envelope, catching and logging any
connect failure. The collaborator outcome is lookup, the connect outcome is
connectOk. -/
def startGame (s : ClientState) (lookup : Option Player) (connectOk : Bool) :
    ClientState :=
  let s1 : ClientState := { s with gameStarted := true }
  let s2 : ClientState := if s1.player.id = none then getOwnPlayer s1 lookup else s1
  if connectOk then
    { s2 with connected := true, events := s2.events ++ startGameEmits true }
  else
    { s2 with log := s2.log ++ ["startGame error"] }

/-- endGame (stores/game.ts): clears the started flag and calls
disconnectSocket then resetSocket on the socket store. Modelled from the
spec for the two socket calls, which are outside the sources at hand:
disconnect releases the transport and reset clears the latest-message slot
without touching anything else. -/
def endGame (s : ClientState) : ClientState :=
  { s with gameStarted := false, connected := false, socketMessage := none }

/-- continueGame of the continue-modal (AppModal handler): on accept it
sends the continue_game envelope; on decline it sends the end_game envelope
and then calls endGame on the game store. -/
def continueGame (s : ClientState) (choice : Bool) : ClientState :=
  if choice then { s with events := s.events ++ [Event.sent continueGameEnv] }
  else endGame { s with events := s.events ++ [Event.sent endGameEnv] }

/-- onSubmit of GameCharacterInput.vue: builds the guess envelope from the
submitted character and hands it to sendSocketMessage. -/
def onSubmit (s : ClientState) (character : String) : ClientState :=
  { s with events := s.events ++ [Event.sent (guessEnv character)] }

/-- getServerStats (stores/game.ts): sends the server_stats envelope. -/
def getServerStats (s : ClientState) : ClientState :=
  { s with events := s.events ++ [Event.sent serverStatsEnv] }

/-- Events emitted by the try block of onMounted in App.vue: connect
completion then the server_stats transmission, or nothing when connect
throws into the catch. -/
def onMountedEmits (connectOk : Bool) : List Event :=
  if connectOk then [Event.connectCompleted, Event.sent serverStatsMountEnv] else []

/-- onMounted of App.vue: awaits connectSocket then sends the server_stats
envelope with null data, catching and logging failures. -/
def onMounted (s : ClientState) (connectOk : Bool) : ClientState :=
  if connectOk then
    { s with connected := true, events := s.events ++ onMountedEmits true }
  else { s with log := s.log ++ ["onMounted error"] }

/-- Arrival of a parsed inbound message: the socket store overwrites the
latest-message slot, then the watchers fire. The GameWordToGuess watcher
merges the data into the game record when the action is game_started; the
GameMiscInformation watcher copies data.active_players into the server
stats when the action is server_stats; every other action changes nothing
beyond the slot. -/
def applyMessage (s : ClientState) (m : InMessage) : ClientState :=
  if m.action = "game_started" then
    { s with socketMessage := some m, game := mergeGame s.game m.data }
  else if m.action = "server_stats" then
    { s with socketMessage := some m, active_players := m.data.active_players }
  else
    { s with socketMessage := some m }

/-- JS split of a string on the empty separator: the list of its single
character strings, empty for the empty string. -/
def jsSplitChars (s : String) : List String := s.toList.map (fun c => String.mk [c])

/-- The wordProgress computed of GameWordToGuess.vue: splits
game.word_progress with no null guard, so it is defined exactly when
word_progress is a string; none models the TypeError thrown on null. -/
def wordProgress (g : Game) : Option (List String) :=
  match g.word_progress with
  | some s => some (jsSplitChars s)
  | none => none

/-- Helper for the send-ordering check: walks the event list keeping a flag
for whether a connect has completed; every transmission must find the flag
set. -/
def sendsPrecededByConnectAux (seen : Bool) : List Event → Bool
  | [] => true
  | Event.connectCompleted :: rest => sendsPrecededByConnectAux true rest
  | Event.sent _ :: rest => seen && sendsPrecededByConnectAux seen rest

/-- Every sent event in the list is preceded by an earlier connect
completion. -/
def sendsPrecededByConnect (es : List Event) : Bool :=
  sendsPrecededByConnectAux false es

/-- A concrete mid-game client state used to evaluate the theorems below on
explicit inputs. -/
def samp : ClientState :=
  { gameStarted := true,
    game := { word_progress := some "_og", guessed_letters := ["o"],
              tries_left := 5, max_tries := 6, successful_guesses := 1,
              game_status := 0 },
    player := initialPlayer 42, active_players := some 0, connected := true,
    socketMessage := none, events := [], log := [] }

/-- A concrete inbound envelope with an unrecognized action. -/
def pingMsg : InMessage := { action := "ping", data := {} }

/-! Helper lemmas: every client-local operation leaves the game record
untouched, and messages with an action other than game_started do too. -/

theorem createPlayer_game (s : ClientState) (resp : Option Player) :
    (createPlayer s resp).game = s.game := by
  cases resp <;> rfl

theorem getOwnPlayer_game (s : ClientState) (resp : Option Player) :
    (getOwnPlayer s resp).game = s.game := by
  cases resp <;> rfl

theorem clearPlayer_game (s : ClientState) (r : Nat) :
    (clearPlayer s r).game = s.game := rfl

theorem startGame_game (s : ClientState) (lookup : Option Player) (cOk : Bool) :
    (startGame s lookup cOk).game = s.game := by
  unfold startGame
  cases cOk <;> by_cases h : s.player.id = none <;>
    simp [h, getOwnPlayer_game]

theorem endGame_game (s : ClientState) : (endGame s).game = s.game := rfl

theorem continueGame_game (s : ClientState) (choice : Bool) :
    (continueGame s choice).game = s.game := by
  cases choice <;> rfl

theorem onSubmit_game (s : ClientState) (c : String) :
    (onSubmit s c).game = s.game := rfl

theorem getServerStats_game (s : ClientState) :
    (getServerStats s).game = s.game := rfl

theorem onMounted_game (s : ClientState) (cOk : Bool) :
    (onMounted s cOk).game = s.game := by
  cases cOk <;> rfl

theorem applyMessage_other_game (s : ClientState) (m : InMessage)
    (h : m.action ≠ "game_started") : (applyMessage s m).game = s.game := by
  unfold applyMessage
  rw [if_neg h]
  by_cases h2 : m.action = "server_stats" <;> simp [h2]

/-- C1: applying an inbound game_started envelope whose data is a full
GameState snapshot replaces every field of any prior local game record, so
the result equals the snapshot exactly; in particular the snapshot with
word_progress _og, guessed_letters [o], tries_left 5, max_tries 6,
successful_guesses 1, game_status 0 yields exactly that record. -/
theorem game_started_full_snapshot_replace :
    (∀ (s : ClientState) (wp : Option String) (gl : List String)
        (tl mt sg st : Int) (ap : Option Int),
      (applyMessage s ⟨"game_started",
        { word_progress := some wp, guessed_letters := some gl,
          tries_left := some tl, max_tries := some mt,
          successful_guesses := some sg, game_status := some st,
          active_players := ap }⟩).game
        = { word_progress := wp, guessed_letters := gl, tries_left := tl,
            max_tries := mt, successful_guesses := sg, game_status := st }) ∧
    (∀ s : ClientState,
      (applyMessage s ⟨"game_started",
        { word_progress := some (some "_og"), guessed_letters := some ["o"],
          tries_left := some 5, max_tries := some 6,
          successful_guesses := some 1, game_status := some 0 }⟩).game
        = { word_progress := some "_og", guessed_letters := ["o"],
            tries_left := 5, max_tries := 6, successful_guesses := 1,
            game_status := 0 }) := by
  refine ⟨fun s wp gl tl mt sg st ap => ?_, fun s => ?_⟩ <;>
    simp [applyMessage, mergeGame]

/-- C2: a guess accepted by the form (exactly one character) is transmitted
as the envelope guess_letter whose data letter is the lowercased input; in
particular the input A lowercases to a. -/
theorem guess_letter_lowercased (s : ClientState) (c : String)
    (h : formAccepts c = true) :
    (onSubmit s c).events
      = s.events ++ [Event.sent ⟨"guess_letter",
          OutData.letterData (jsToLowerCase c)⟩] ∧
    jsToLowerCase "A" = "a" := by
  exact ⟨rfl, by decide⟩

/-- Witness for C2 at the concrete input A. -/
theorem guess_letter_lowercased_witness :
    formAccepts "A" = true ∧
    ((onSubmit samp "A").events
        = samp.events ++ [Event.sent ⟨"guess_letter",
            OutData.letterData (jsToLowerCase "A")⟩] ∧
      jsToLowerCase "A" = "a") :=
  ⟨by decide, guess_letter_lowercased samp "A" (by decide)⟩

/-- C3 counterexample: at a concrete mid-game state, endGame leaves the game
record at its pre-call value rather than the zeroed default, and emits no
end_game envelope (its event trace stays empty). -/
theorem endGame_no_reset_counterexample :
    (endGame samp).game ≠ initialGame ∧ (endGame samp).events = [] := by
  decide

/-- C3 amended: endGame only clears the started flag, disconnects and clears
the latest-message slot, leaving the game record, player, event trace and
log unchanged; the fixed-shape end_game envelope is sent by the
continue-modal decline handler, which transmits it and then calls endGame,
and even that path leaves the game record unchanged. -/
theorem endGame_teardown_only (s : ClientState) :
    endGame s = { s with gameStarted := false, connected := false,
                         socketMessage := none } ∧
    (continueGame s false).events = s.events ++ [Event.sent endGameEnv] ∧
    (continueGame s false).game = s.game := by
  refine ⟨rfl, ?_, continueGame_game s false⟩
  simp [continueGame, endGame]

/-- C4: an inbound envelope whose action is not the recognized game event
game_started leaves every field of the local game record unchanged; the
apply step is a total function, so it cannot fail or throw. -/
theorem unknown_action_leaves_game (s : ClientState) (m : InMessage)
    (h : m.action ≠ "game_started") :
    (applyMessage s m).game = s.game :=
  applyMessage_other_game s m h

/-- Witness for C4 at the concrete action ping. -/
theorem unknown_action_leaves_game_witness :
    pingMsg.action ≠ "game_started" ∧ (applyMessage samp pingMsg).game = samp.game :=
  ⟨by decide, unknown_action_leaves_game samp pingMsg (by decide)⟩

/-- C5 counterexample: starting from the initial state with a null player id
and a failing lookup, startGame still emits the start_game envelope while
player.id is still null. -/
theorem start_game_sent_with_null_id_counterexample :
    (startGame (initialState 7) none true).player.id = none ∧
    Event.sent startGameEnv ∈ (startGame (initialState 7) none true).events := by
  decide

/-- A concrete player record as returned by a successful lookup. -/
def fetchedPlayer : Player :=
  { id := some "p1", username := none, playername := "Player7",
    points := 0, games_played := 0, games_won := 0 }

/-- C5 amended: when player.id is null, startGame attempts the lookup before
sending and on success assigns the fetched player first; but the ensure is
best effort only: when the lookup fails the error is swallowed and the
start_game envelope is sent with player.id still null. -/
theorem startGame_lookup_best_effort (s : ClientState) (p : Player)
    (lookup : Option Player) (h : s.player.id = none) :
    (startGame s (some p) true).player = p ∧
    (startGame s none true).player = s.player ∧
    (startGame s lookup true).events
      = s.events ++ [Event.connectCompleted, Event.sent startGameEnv] := by
  refine ⟨?_, ?_, ?_⟩ <;>
    · unfold startGame
      cases lookup <;> simp [h, getOwnPlayer, startGameEmits]

/-- Witness for C5 amended at the initial state. -/
theorem startGame_lookup_best_effort_witness :
    (initialState 7).player.id = none ∧
    ((startGame (initialState 7) (some fetchedPlayer) true).player = fetchedPlayer ∧
     (startGame (initialState 7) none true).player = (initialState 7).player ∧
     (startGame (initialState 7) none true).events
       = (initialState 7).events
           ++ [Event.connectCompleted, Event.sent startGameEnv]) :=
  ⟨by decide,
   startGame_lookup_best_effort (initialState 7) fetchedPlayer none (by decide)⟩

/-- C6: no client-local operation mutates tries_left; it changes only when
an inbound game_started envelope from the server is merged, so the client
never decrements it speculatively. -/
theorem tries_left_server_follower (s : ClientState)
    (lookup resp : Option Player) (cOk choice : Bool) (c : String) (r : Nat)
    (m : InMessage) :
    (startGame s lookup cOk).game.tries_left = s.game.tries_left ∧
    (endGame s).game.tries_left = s.game.tries_left ∧
    (onSubmit s c).game.tries_left = s.game.tries_left ∧
    (continueGame s choice).game.tries_left = s.game.tries_left ∧
    (clearPlayer s r).game.tries_left = s.game.tries_left ∧
    (createPlayer s resp).game.tries_left = s.game.tries_left ∧
    (getOwnPlayer s resp).game.tries_left = s.game.tries_left ∧
    (getServerStats s).game.tries_left = s.game.tries_left ∧
    (onMounted s cOk).game.tries_left = s.game.tries_left ∧
    (m.action ≠ "game_started" →
      (applyMessage s m).game.tries_left = s.game.tries_left) :=
  ⟨congrArg Game.tries_left (startGame_game s lookup cOk),
   congrArg Game.tries_left (endGame_game s),
   congrArg Game.tries_left (onSubmit_game s c),
   congrArg Game.tries_left (continueGame_game s choice),
   congrArg Game.tries_left (clearPlayer_game s r),
   congrArg Game.tries_left (createPlayer_game s resp),
   congrArg Game.tries_left (getOwnPlayer_game s resp),
   congrArg Game.tries_left (getServerStats_game s),
   congrArg Game.tries_left (onMounted_game s cOk),
   fun h => congrArg Game.tries_left (applyMessage_other_game s m h)⟩

/-- Witness for C6: the ping envelope leaves tries_left of the concrete
state untouched. -/
theorem tries_left_server_follower_witness :
    (applyMessage samp pingMsg).game.tries_left = samp.game.tries_left :=
  (tries_left_server_follower samp none none true true "a" 0
      pingMsg).2.2.2.2.2.2.2.2.2 (by decide)

/-- A concrete inbound payload carrying only game_status 1. -/
def wonData : MsgData := { game_status := some 1 }

/-- C7: merging a game_started envelope whose data carries game_status 1
sets the flag to 1, and neither any client-local operation nor any inbound
envelope other than a game_started snapshot alters game_status afterwards. -/
theorem game_status_terminal_persists (s : ClientState) (d : MsgData)
    (lookup resp : Option Player) (cOk choice : Bool) (c : String) (r : Nat)
    (m : InMessage) :
    (d.game_status = some 1 →
      (applyMessage s ⟨"game_started", d⟩).game.game_status = 1) ∧
    (startGame s lookup cOk).game.game_status = s.game.game_status ∧
    (endGame s).game.game_status = s.game.game_status ∧
    (onSubmit s c).game.game_status = s.game.game_status ∧
    (continueGame s choice).game.game_status = s.game.game_status ∧
    (clearPlayer s r).game.game_status = s.game.game_status ∧
    (createPlayer s resp).game.game_status = s.game.game_status ∧
    (getOwnPlayer s resp).game.game_status = s.game.game_status ∧
    (getServerStats s).game.game_status = s.game.game_status ∧
    (onMounted s cOk).game.game_status = s.game.game_status ∧
    (m.action ≠ "game_started" →
      (applyMessage s m).game.game_status = s.game.game_status) :=
  ⟨fun h => by simp [applyMessage, mergeGame, h],
   congrArg Game.game_status (startGame_game s lookup cOk),
   congrArg Game.game_status (endGame_game s),
   congrArg Game.game_status (onSubmit_game s c),
   congrArg Game.game_status (continueGame_game s choice),
   congrArg Game.game_status (clearPlayer_game s r),
   congrArg Game.game_status (createPlayer_game s resp),
   congrArg Game.game_status (getOwnPlayer_game s resp),
   congrArg Game.game_status (getServerStats_game s),
   congrArg Game.game_status (onMounted_game s cOk),
   fun h => congrArg Game.game_status (applyMessage_other_game s m h)⟩

/-- Witness for C7 at the concrete won payload and the ping envelope. -/
theorem game_status_terminal_persists_witness :
    (applyMessage samp ⟨"game_started", wonData⟩).game.game_status = 1 ∧
    (applyMessage samp pingMsg).game.game_status = samp.game.game_status :=
  ⟨(game_status_terminal_persists samp wonData none none true true "a" 0
      pingMsg).1 (by decide),
   (game_status_terminal_persists samp wonData none none true true "a" 0
      pingMsg).2.2.2.2.2.2.2.2.2.2 (by decide)⟩

/-- C8 counterexample: a rejected getOwnPlayer call appends no entry to the
console log, because the catch block in stores/game.ts is empty (its logging
line is commented out), so the failure is caught but not logged. -/
theorem getOwnPlayer_failure_not_logged :
    ¬ (initialState 3).log.length < (getOwnPlayer (initialState 3) none).log.length := by
  decide

/-- C8 amended: failing collaborator calls are caught at the call site and
never propagate; createPlayer logs the failure while getOwnPlayer swallows
it silently; on failure the player record and the game record (indeed the
whole state) are exactly as before the call, and the player record is
assigned only on success. -/
theorem collaborator_failure_contained (s : ClientState) :
    createPlayer s none = { s with log := s.log ++ ["createPlayer error"] } ∧
    getOwnPlayer s none = s ∧
    (∀ p : Player, (createPlayer s (some p)).player = p) ∧
    (∀ p : Player, (getOwnPlayer s (some p)).player = p) :=
  ⟨rfl, rfl, fun _ => rfl, fun _ => rfl⟩

/-- C9: at both call sites that connect and then send, the onMounted hook of
App.vue and startGame of the game store, every transmitted envelope in the
emitted trace is preceded by a completed connect, and the operations emit
exactly those traces. -/
theorem connect_awaited_before_send :
    (∀ cOk : Bool, sendsPrecededByConnect (onMountedEmits cOk) = true) ∧
    (∀ cOk : Bool, sendsPrecededByConnect (startGameEmits cOk) = true) ∧
    (∀ (s : ClientState) (cOk : Bool),
      (onMounted s cOk).events = s.events ++ onMountedEmits cOk) ∧
    (∀ (s : ClientState) (lookup : Option Player) (cOk : Bool),
      (startGame s lookup cOk).events = s.events ++ startGameEmits cOk) := by
  refine ⟨fun cOk => ?_, fun cOk => ?_, fun s cOk => ?_, fun s lookup cOk => ?_⟩
  · cases cOk <;> decide
  · cases cOk <;> decide
  · cases cOk <;> simp [onMounted, onMountedEmits]
  · unfold startGame
    cases cOk <;> cases lookup <;> by_cases h : s.player.id = none <;>
      simp [h, getOwnPlayer, startGameEmits]

/-- A concrete inbound payload setting word_progress to null. -/
def nullWpData : MsgData := { word_progress := some none }

/-- C10: the wordProgress view splits the current word_progress with no null
guard: it is defined exactly on strings, yielding the list of their single
character strings and the empty list for the empty string, and is undefined
(a thrown TypeError, modelled as none) once a merged snapshot has set
word_progress to null; word_progress starts as the empty string and no
client-local operation changes it. -/
theorem wordProgress_null_undefined (g : Game) (s : ClientState) (str : String)
    (d : MsgData) (lookup resp : Option Player) (cOk choice : Bool)
    (c : String) (r : Nat) :
    wordProgress { g with word_progress := some str } = some (jsSplitChars str) ∧
    jsSplitChars "" = [] ∧
    wordProgress { g with word_progress := none } = none ∧
    (d.word_progress = some none →
      (applyMessage s ⟨"game_started", d⟩).game.word_progress = none) ∧
    initialGame.word_progress = some "" ∧
    (startGame s lookup cOk).game.word_progress = s.game.word_progress ∧
    (endGame s).game.word_progress = s.game.word_progress ∧
    (onSubmit s c).game.word_progress = s.game.word_progress ∧
    (continueGame s choice).game.word_progress = s.game.word_progress ∧
    (clearPlayer s r).game.word_progress = s.game.word_progress ∧
    (createPlayer s resp).game.word_progress = s.game.word_progress ∧
    (getOwnPlayer s resp).game.word_progress = s.game.word_progress ∧
    (getServerStats s).game.word_progress = s.game.word_progress ∧
    (onMounted s cOk).game.word_progress = s.game.word_progress :=
  ⟨rfl, rfl, rfl,
   fun h => by simp [applyMessage, mergeGame, h],
   rfl,
   congrArg Game.word_progress (startGame_game s lookup cOk),
   congrArg Game.word_progress (endGame_game s),
   congrArg Game.word_progress (onSubmit_game s c),
   congrArg Game.word_progress (continueGame_game s choice),
   congrArg Game.word_progress (clearPlayer_game s r),
   congrArg Game.word_progress (createPlayer_game s resp),
   congrArg Game.word_progress (getOwnPlayer_game s resp),
   congrArg Game.word_progress (getServerStats_game s),
   congrArg Game.word_progress (onMounted_game s cOk)⟩

/-- Witness for C10: a snapshot carrying a null word_progress makes the view
undefined on the concrete state. -/
theorem wordProgress_null_undefined_witness :
    (applyMessage samp ⟨"game_started", nullWpData⟩).game.word_progress = none :=
  (wordProgress_null_undefined samp.game samp "" nullWpData none none true true
      "a" 0).2.2.2.1 (by decide)

end Hangman
